import Mathlib

/-!
Shallow embedding of the webhook chatbot in `src/app.py` and proofs about it.

Python values occurring in webhook payloads are modelled by the inductive
type `Json` (Python `None` is `Json.null`).  Python operations that can raise
(`x.get(...)` on a non-dict, iterating a non-iterable, `str.strip` on a
non-string, `str.join` over non-strings) are modelled in the `Except PyErr`
monad; everything else is pure.  The SQLite `messages` table is modelled as a
`List Turn` in insertion (`id`) order; `save_message` appends, and
`get_last_messages` replays the `ORDER BY id DESC LIMIT 5` query followed by
the in-Python reverse and formatting loop.  The Gemini call and the
environment-sourced configuration are collected in `Env`; the outbound
Messenger send is recorded as an invocation log in `WebhookState.sent`
(its body only performs logging and a fire-and-forget HTTP POST and returns
nothing to the caller).
-/

/-- A JSON-like Python value as delivered by `request.get_json`.  `null`
models Python `None`; `obj` keeps the key/value pairs of a dict in order. -/
inductive Json where
  | null
  | bool (b : Bool)
  | num (n : Int)
  | str (s : String)
  | arr (elems : List Json)
  | obj (fields : List (String × Json))

/-- The Python exceptions the handler can actually raise in this pipeline:
`TypeError` (iterating a non-iterable, joining non-strings) and
`AttributeError` (calling `.get`/`.strip` on a value lacking the method). -/
inductive PyErr where
  | typeError
  | attrError
deriving DecidableEq, Repr

/-- Dict lookup: the value stored under `key`, if any (Python dict keys are
unique; the first binding wins). -/
def dictLookup : List (String × Json) → String → Option Json
  | [], _ => none
  | (k, v) :: rest, key => if k = key then some v else dictLookup rest key

/-- Whether a value is a Python dict (`isinstance(x, dict)`). -/
def Json.isObj : Json → Bool
  | .obj _ => true
  | _ => false

/-- Python truthiness of a JSON-like value. -/
def truthy : Json → Bool
  | .null => false
  | .bool b => b
  | .num n => n ≠ 0
  | .str s => s ≠ ""
  | .arr elems => ¬ elems.isEmpty
  | .obj fields => ¬ fields.isEmpty

/-- Python `x.get(key, default)`: raises `AttributeError` unless `x` is a
dict; the default is used only when the key is absent (a stored `None` is
returned as `None`). -/
def pyGetD (x : Json) (key : String) (default : Json) : Except PyErr Json :=
  match x with
  | .obj fields => .ok ((dictLookup fields key).getD default)
  | _ => .error .attrError

/-- Python `x.get(key)` (default `None`). -/
def pyGet (x : Json) (key : String) : Except PyErr Json :=
  pyGetD x key .null

/-- Python `a or b` on JSON-like values. -/
def pyOr (a b : Json) : Json :=
  if truthy a then a else b

/-- Python iteration `for v in x`: lists yield their elements, dicts their
keys, strings their characters (as one-character strings); anything else
raises `TypeError`. -/
def pyIter : Json → Except PyErr (List Json)
  | .arr elems => .ok elems
  | .obj fields => .ok (fields.map fun kv => .str kv.1)
  | .str s => .ok (s.data.map fun c => .str (String.mk [c]))
  | _ => .error .typeError

/-- Python `s.strip()` on a string: drop leading and trailing whitespace. -/
def pyTrim (s : String) : String :=
  String.mk (((s.data.dropWhile Char.isWhitespace).reverse.dropWhile Char.isWhitespace).reverse)

/-- Python `x.strip()`: raises `AttributeError` unless `x` is a string. -/
def pyStrip : Json → Except PyErr String
  | .str s => .ok (pyTrim s)
  | _ => .error .attrError

mutual

/-- Structural equality of JSON-like values (models the SQL comparison
`user_id = ?`). -/
def Json.beq : Json → Json → Bool
  | .null, .null => true
  | .bool a, .bool b => a == b
  | .num a, .num b => a == b
  | .str a, .str b => a == b
  | .arr xs, .arr ys => Json.beqList xs ys
  | .obj xs, .obj ys => Json.beqFields xs ys
  | _, _ => false

/-- Elementwise `Json.beq` on lists. -/
def Json.beqList : List Json → List Json → Bool
  | [], [] => true
  | x :: xs, y :: ys => Json.beq x y && Json.beqList xs ys
  | _, _ => false

/-- Elementwise `Json.beq` on dict fields. -/
def Json.beqFields : List (String × Json) → List (String × Json) → Bool
  | [], [] => true
  | (k, v) :: xs, (l, w) :: ys => k == l && Json.beq v w && Json.beqFields xs ys
  | _, _ => false

end

/-- Whether an `Except` computation succeeded. -/
def exceptOk {ε α : Type} : Except ε α → Bool
  | .ok _ => true
  | .error _ => false

-- ===== SAVE MESSAGE / GET LAST 5 MESSAGES (the `messages` table) =====

/-- One row of the `messages` table (the surrogate key is the list
position; the timestamp column is never read back). -/
structure Turn where
  user_id : Json
  role : String
  content : String

/-- Model of `save_message`: `INSERT INTO messages (user_id, role, content)` —
appends one row. -/
def save_message (store : List Turn) (user_id : Json) (role content : String) :
    List Turn :=
  store ++ [⟨user_id, role, content⟩]

/-- The `f"{role}: {content}\n"` line appended per row. -/
def formatTurnLine (t : Turn) : String :=
  t.role ++ ": " ++ t.content ++ "\n"

/-- Model of `get_last_messages`: `SELECT role, content WHERE user_id = ? ORDER BY id
DESC LIMIT 5`, then `rows.reverse()`, then the formatting loop. -/
def get_last_messages (store : List Turn) (user_id : Json) : String :=
  let rows := ((store.filter fun t => Json.beq t.user_id user_id).reverse.take 5).reverse
  rows.foldl (fun history t => history ++ formatTurnLine t) ""

-- ===== extract_message_events =====

/-- The single-event form: `data.get("field") == "messages"` and
`isinstance(data.get("value"), dict)` appends `data["value"]`. -/
def single_event (fields : List (String × Json)) : List Json :=
  match dictLookup fields "field", dictLookup fields "value" with
  | some (.str "messages"), some (.obj vfields) => [Json.obj vfields]
  | _, _ => []

/-- The nested sample form: `data.get("sample")` must be a dict satisfying
the same discriminator shape. -/
def sample_event (fields : List (String × Json)) : List Json :=
  match dictLookup fields "sample" with
  | some (.obj sfields) => single_event sfields
  | _ => []

/-- The inner loop body `for msg in entry.get("messaging", [])`. -/
def entry_events (entry : Json) : Except PyErr (List Json) := do
  let messaging ← pyGetD entry "messaging" (.arr [])
  pyIter messaging

/-- The batch loop `for entry in data.get("entry", [])`, flattened in
entry-then-inner order. -/
def batch_events (entryVal : Json) : Except PyErr (List Json) := do
  let entries ← pyIter entryVal
  let eventLists ← entries.mapM entry_events
  return eventLists.flatten

/-- Model of `extract_message_events`: non-dict input yields `[]`; otherwise the
single-event form, then the sample form, then the batch events are
appended in that order. -/
def extract_message_events (data : Json) : Except PyErr (List Json) :=
  match data with
  | .obj fields => do
    let batched ← batch_events ((dictLookup fields "entry").getD (.arr []))
    return single_event fields ++ sample_event fields ++ batched
  | _ => .ok []

-- ===== get_user_text =====

/-- The comprehension `[command.get("name") for command in commands if
isinstance(command, dict) and command.get("name")]`: the (truthy) name
values of dict commands, in encountered order. -/
def keptCommandNames (commands : List Json) : List Json :=
  commands.filterMap fun command =>
    match command with
    | .obj cfields =>
      let nm := (dictLookup cfields "name").getD .null
      if truthy nm then some nm else none
    | _ => none

/-- All-strings view of a list of values, if every element is a string. -/
def asStrings : List Json → Option (List String)
  | [] => some []
  | .str s :: rest => (asStrings rest).map fun l => s :: l
  | _ :: _ => none

/-- Python `sep.join(items)`: `TypeError` unless every item is a string. -/
def pyJoin (sep : String) (items : List Json) : Except PyErr String :=
  match asStrings items with
  | some strs => .ok (String.intercalate sep strs)
  | none => .error .typeError

/-- Model of `get_user_text`: trims `message.get("text") or ""`, keeps the named
commands, and merges them by the source's two-branch rule.  Returns the
`(text, command_names)` pair. -/
def get_user_text (message : Json) : Except PyErr (String × List Json) := do
  let rawText ← pyGet message "text"
  let text ← pyStrip (pyOr rawText (.str ""))
  let rawCommands ← pyGet message "commands"
  let commands ← pyIter (pyOr rawCommands (.arr []))
  let command_names := keptCommandNames commands
  if command_names.isEmpty then
    return (text, command_names)
  else
    let joined ← pyJoin ", " command_names
    if text ≠ "" then
      return (text ++ "\nCommands: " ++ joined, command_names)
    else
      return ("Commands: " ++ joined, command_names)

-- ===== build_prompt / generate_bot_reply =====

/-- The f-string template of `build_prompt`, split at its two holes. -/
def promptHeader : String :=
  "\nBạn là chatbot bán hàng.\nĐây là lịch sử 5 tin nhắn gần nhất:\n"

/-- Template text between the history hole and the user-text hole. -/
def promptMiddle : String :=
  "\n\nĐây là tin nhắn mới nhất của khách:\n"

/-- Template text after the user-text hole. -/
def promptFooter : String :=
  "\n\nTrả lời khách chuyên nghiệp, ngắn gọn.\n"

/-- Model of `build_prompt(history, user_text)`. -/
def build_prompt (history user_text : String) : String :=
  promptHeader ++ history ++ promptMiddle ++ user_text ++ promptFooter

/-- Outcome of one `model.generate_content` call: it raises, or it returns a
response whose `.text` is `None` or a string. -/
inductive ApiOutcome where
  | raises
  | returns (text : Option String)

/-- The environment-sourced configuration plus a deterministic oracle for
the Gemini call.  `model` in the source is non-`None` exactly when
`GEMINI_API_KEY` is non-empty. -/
structure Env where
  fb_page_token : String
  gemini_api_key : String
  api : String → ApiOutcome

/-- Whether the module-level `model` handle was constructed. -/
def modelConfigured (env : Env) : Bool :=
  env.gemini_api_key ≠ ""

/-- The fixed fallback reply. -/
def fallbackReply : String :=
  "Xin lỗi, tôi chưa thể phản hồi ngay lúc này."

/-- Python `(s or d)` for an optional string `s`. -/
def pyOrStr (s : Option String) (d : String) : String :=
  match s with
  | some s => if s ≠ "" then s else d
  | none => d

/-- Model of `generate_bot_reply`: fallback when no model is configured, when the
call raises, or when the stripped response text is empty; otherwise the
stripped response text. -/
def generate_bot_reply (env : Env) (prompt : String) : String :=
  if ¬ modelConfigured env then fallbackReply
  else
    match env.api prompt with
    | .raises => fallbackReply
    | .returns t =>
      let text := pyTrim (pyOrStr t "")
      if text = "" then fallbackReply else text

-- ===== webhook (POST) =====

/-- State threaded through one POST request: the `messages` table and the
log of `send_message(sender_id, text)` invocations. -/
structure WebhookState where
  store : List Turn
  sent : List (Json × String)

/-- The body of the `for msg in extract_message_events(data)` loop: skip on
missing/falsy `sender.id` or empty normalized text; otherwise save the user
turn, fetch history, build the prompt, generate, save the bot turn, and
invoke the outbound send once. -/
def process_event (env : Env) (st : WebhookState) (msg : Json) :
    Except PyErr WebhookState := do
  let senderObj ← pyGetD msg "sender" (.obj [])
  let sender_id ← pyGet senderObj "id"
  if ¬ truthy sender_id then
    return st
  else
    let message ← pyGetD msg "message" (.obj [])
    let tc ← get_user_text message
    let user_text := tc.1
    if user_text = "" then
      return st
    else
      let store1 := save_message st.store sender_id "user" user_text
      let history := get_last_messages store1 sender_id
      let prompt := build_prompt history user_text
      let bot_reply := generate_bot_reply env prompt
      let store2 := save_message store1 sender_id "bot" bot_reply
      return { store := store2, sent := st.sent ++ [(sender_id, bot_reply)] }

/-- An HTTP response as Flask builds it from `return "OK", 200`. -/
structure HttpResponse where
  body : String
  status : Nat
deriving DecidableEq, Repr

/-- The `POST /webhook` handler.  `body = none` models
`request.get_json(silent=True)` returning `None` (malformed/empty JSON).
An uncaught Python exception surfaces as `.error` (Flask then answers 500,
not `"OK"`). -/
def webhook (env : Env) (st : WebhookState) (body : Option Json) :
    Except PyErr (WebhookState × HttpResponse) :=
  match body with
  | none => .ok (st, ⟨"OK", 200⟩)
  | some data => do
    let events ← extract_message_events data
    let final ← events.foldlM (process_event env) st
    return (final, ⟨"OK", 200⟩)

-- ===== verify (GET) =====

/-- What the `verify` view returns: a string body, or Python `None` (the
challenge parameter was absent). -/
inductive ViewResult where
  | body (s : String)
  | pyNone
deriving DecidableEq, Repr

/-- The `GET /webhook` handler: `request.args` is the query-parameter map;
the verify token must equal `VERIFY_TOKEN` and `VERIFY_TOKEN` must be
truthy (non-empty). -/
def verify (verifyToken : String) (args : String → Option String) : ViewResult :=
  if args "hub.verify_token" = some verifyToken ∧ verifyToken ≠ "" then
    match args "hub.challenge" with
    | some c => .body c
    | none => .pyNone
  else
    .body "Verification failed"

-- ===== Shape predicates (domains on which the handler provably raises nothing) =====

/-- The `entry` part of a payload is of the recognized batch shape: absent,
or a list of dicts whose `messaging` (when present) is a list. -/
def entry_shape_ok (data : Json) : Bool :=
  match data with
  | .obj fields =>
    match (dictLookup fields "entry").getD (.arr []) with
    | .arr entries =>
      entries.all fun e =>
        match e with
        | .obj efields =>
          match (dictLookup efields "messaging").getD (.arr []) with
          | .arr _ => true
          | _ => false
        | _ => false
    | _ => false
  | _ => true

/-- The error-prone prefix of the per-event loop body (everything up to and
including `get_user_text`) runs without raising on this event. -/
def event_shape_ok (msg : Json) : Bool :=
  exceptOk (do
    let senderObj ← pyGetD msg "sender" (.obj [])
    let sender_id ← pyGet senderObj "id"
    if ¬ truthy sender_id then
      return ()
    else
      let message ← pyGetD msg "message" (.obj [])
      let _ ← get_user_text message
      return ())

/-- Extraction succeeds and every extracted event has a recognized shape. -/
def payload_shape_ok (data : Json) : Bool :=
  match extract_message_events data with
  | .error _ => false
  | .ok events => events.all event_shape_ok

-- ===== Spec-side definitions (§4.4 stated from the spec's words, for the
-- refinement comparison in the normalization claim) =====

/-- Spec §4.4: the message's trimmed `text` (absent/null → empty). -/
def specText (mfields : List (String × Json)) : String :=
  match dictLookup mfields "text" with
  | some (.str s) => pyTrim s
  | _ => ""

/-- Spec §4.4: the `commands` sequence of the message (absent/null → empty). -/
def specCommands (mfields : List (String × Json)) : List Json :=
  match dictLookup mfields "commands" with
  | some (.arr cs) => cs
  | _ => []

/-- Spec §4.4: the names of the commands, keeping only commands that are
objects bearing a (non-empty) name, in encountered order. -/
def specNames (commands : List Json) : List String :=
  commands.filterMap fun c =>
    match c with
    | .obj cfields =>
      match dictLookup cfields "name" with
      | some (.str s) => if s = "" then none else some s
      | _ => none
    | _ => none

/-- Spec §4.4 combination rule: both present → text, newline, comma-joined
names after `Commands: `; only commands → the `Commands: ` line; only text →
the text unchanged; neither → empty. -/
def specCombine (text : String) (names : List String) : String :=
  if text ≠ "" ∧ names ≠ [] then text ++ "\nCommands: " ++ String.intercalate ", " names
  else if names ≠ [] then "Commands: " ++ String.intercalate ", " names
  else text

-- ===== Concrete fixtures used for instantiating theorems =====

/-- A deployment with no page token and no Gemini key (the degraded mode the
source logs a warning about). -/
def envNoApi : Env := ⟨"", "", fun _ => .raises⟩

/-- A deployment with both credentials whose generation call returns a
padded reply. -/
def envChat : Env := ⟨"tok", "key", fun _ => .returns (some " Chào bạn ")⟩

/-- Query parameters carrying both a verify token and a challenge. -/
def argsFull : String → Option String := fun k =>
  if k = "hub.verify_token" then some "shhh"
  else if k = "hub.challenge" then some "12345" else none

/-- Query parameters carrying a verify token but no challenge. -/
def argsNoChallenge : String → Option String := fun k =>
  if k = "hub.verify_token" then some "shhh" else none

/-- A well-formed messaging event from `"U1"` saying `"hi"`. -/
def eventHi : Json :=
  .obj [("sender", .obj [("id", .str "U1")]), ("message", .obj [("text", .str "hi")])]

/-- A messaging event with a sender id but an empty `message` object. -/
def eventEmpty : Json :=
  .obj [("sender", .obj [("id", .str "U2")]), ("message", .obj [])]

-- ===== Helper lemmas =====

mutual

theorem Json.beq_refl : (a : Json) → Json.beq a a = true
  | .null => rfl
  | .bool b => by simp [Json.beq]
  | .num n => by simp [Json.beq]
  | .str s => by simp [Json.beq]
  | .arr xs => by simpa [Json.beq] using Json.beqList_refl xs
  | .obj fs => by simpa [Json.beq] using Json.beqFields_refl fs

theorem Json.beqList_refl : (xs : List Json) → Json.beqList xs xs = true
  | [] => rfl
  | x :: xs => by simp [Json.beqList, Json.beq_refl x, Json.beqList_refl xs]

theorem Json.beqFields_refl : (fs : List (String × Json)) → Json.beqFields fs fs = true
  | [] => rfl
  | (k, v) :: fs => by simp [Json.beqFields, Json.beq_refl v, Json.beqFields_refl fs]

end

theorem reverse_take_reverse {α : Type} (l : List α) (k : Nat) :
    (l.reverse.take k).reverse = l.drop (l.length - k) := by
  rw [List.reverse_take]
  simp

theorem foldl_string_append (l : List String) (s : String) :
    l.foldl (fun a b => a ++ b) s = s ++ String.join l := by
  induction l generalizing s with
  | nil => simp [String.join]
  | cons a l ih =>
    show l.foldl (fun a b => a ++ b) (s ++ a) = s ++ String.join (a :: l)
    rw [ih]
    have h : String.join (a :: l) = a ++ String.join l := by
      show l.foldl (fun a b => a ++ b) ("" ++ a) = a ++ String.join l
      rw [ih]
      simp
    rw [h, String.append_assoc]

theorem string_join_append (l₁ l₂ : List String) :
    String.join (l₁ ++ l₂) = String.join l₁ ++ String.join l₂ := by
  show (l₁ ++ l₂).foldl (fun a b => a ++ b) "" = String.join l₁ ++ String.join l₂
  rw [List.foldl_append, foldl_string_append, foldl_string_append]
  simp

/-- Closed form of `get_last_messages`: the formatted last-`min(N,5)` window
of the user's rows, in chronological order. -/
theorem get_last_messages_eq (store : List Turn) (uid : Json) :
    get_last_messages store uid =
      String.join ((((store.filter fun t => Json.beq t.user_id uid)).drop
        ((store.filter fun t => Json.beq t.user_id uid).length - 5)).map formatTurnLine) := by
  unfold get_last_messages
  rw [reverse_take_reverse]
  rw [← List.foldl_map formatTurnLine (fun a b => a ++ b)]
  rw [foldl_string_append]
  simp



theorem process_event_run (env : Env) (st : WebhookState)
    (msg senderObj sender_id message : Json) (text : String) (names : List Json)
    (hs : pyGetD msg "sender" (.obj []) = .ok senderObj)
    (hid : pyGet senderObj "id" = .ok sender_id)
    (ht : truthy sender_id = true)
    (hm : pyGetD msg "message" (.obj []) = .ok message)
    (hu : get_user_text message = .ok (text, names))
    (htext : text ≠ "") :
    process_event env st msg = .ok
      { store := st.store ++ [⟨sender_id, "user", text⟩,
          ⟨sender_id, "bot", generate_bot_reply env (build_prompt
            (get_last_messages (st.store ++ [⟨sender_id, "user", text⟩]) sender_id) text)⟩],
        sent := st.sent ++ [(sender_id, generate_bot_reply env (build_prompt
          (get_last_messages (st.store ++ [⟨sender_id, "user", text⟩]) sender_id) text))] } := by
  simp only [process_event, hs, hid, hm, hu, Bind.bind, Except.bind, ht, Bool.not_true,
    Bool.false_eq_true, if_false, htext, if_neg, save_message, List.append_assoc,
    List.cons_append, List.nil_append]
  rfl

theorem process_event_skip (env : Env) (st : WebhookState)
    (msg senderObj sender_id message : Json) (names : List Json)
    (hs : pyGetD msg "sender" (.obj []) = .ok senderObj)
    (hid : pyGet senderObj "id" = .ok sender_id)
    (ht : truthy sender_id = true)
    (hm : pyGetD msg "message" (.obj []) = .ok message)
    (hu : get_user_text message = .ok ("", names)) :
    process_event env st msg = .ok st := by
  simp only [process_event, hs, hid, hm, hu, Bind.bind, Except.bind, ht, Bool.not_true,
    Bool.false_eq_true, if_false]
  rfl

theorem process_event_skip_nosender (env : Env) (st : WebhookState)
    (msg senderObj sender_id : Json)
    (hs : pyGetD msg "sender" (.obj []) = .ok senderObj)
    (hid : pyGet senderObj "id" = .ok sender_id)
    (ht : truthy sender_id = false) :
    process_event env st msg = .ok st := by
  simp only [process_event, hs, hid, Bind.bind, Except.bind, ht, Bool.not_false, if_true]
  rfl

theorem exceptOk_iff {ε α : Type} (x : Except ε α) :
    exceptOk x = true ↔ ∃ a, x = .ok a := by
  cases x <;> simp [exceptOk]

theorem filter_append_self (store : List Turn) (t : Turn) (uid : Json)
    (h : Json.beq t.user_id uid = true) :
    (store ++ [t]).filter (fun x => Json.beq x.user_id uid)
      = store.filter (fun x => Json.beq x.user_id uid) ++ [t] := by
  rw [List.filter_append]
  simp [List.filter, h]

theorem history_ends_with_line (store : List Turn) (uid : Json) (t : Turn)
    (h : Json.beq t.user_id uid = true) :
    ∃ h0 : String, get_last_messages (store ++ [t]) uid = h0 ++ formatTurnLine t := by
  rw [get_last_messages_eq, filter_append_self store t uid h]
  refine ⟨String.join ((((store.filter fun x => Json.beq x.user_id uid)).drop
    (((store.filter fun x => Json.beq x.user_id uid) ++ [t]).length - 5)).map formatTurnLine), ?_⟩
  rw [List.drop_append_eq_append_drop]
  have hz : ((store.filter fun x => Json.beq x.user_id uid) ++ [t]).length - 5
      - (store.filter fun x => Json.beq x.user_id uid).length = 0 := by
    simp [List.length_append]
  rw [hz]
  simp [List.map_append, string_join_append, String.join]

theorem process_event_isOk_eq_shape (env : Env) (st : WebhookState) (msg : Json) :
    exceptOk (process_event env st msg) = event_shape_ok msg := by
  unfold process_event event_shape_ok
  cases hs : pyGetD msg "sender" (.obj []) with
  | error e => simp [Bind.bind, Except.bind, exceptOk]
  | ok senderObj =>
    simp only [Bind.bind, Except.bind]
    cases hid : pyGet senderObj "id" with
    | error e => simp [exceptOk]
    | ok sender_id =>
      by_cases ht : truthy sender_id
      · simp only [ht, Bool.not_true, Bool.false_eq_true, if_false]
        cases hm : pyGetD msg "message" (.obj []) with
        | error e => simp [hm, exceptOk]
        | ok message =>
          cases hu : get_user_text message with
          | error e => simp [hm, hu, exceptOk]
          | ok tc =>
            by_cases htext : tc.1 = "" <;> simp [hm, hu, htext, exceptOk, pure, Except.pure]
      · simp only [eq_false_of_ne_true (by simpa using ht), Bool.not_false, if_true]
        simp [exceptOk, pure, Except.pure]

theorem webhook_single_event (env : Env) (st st' : WebhookState) (msg : Json)
    (h : process_event env st msg = .ok st') :
    webhook env st (some (.obj [("entry", .arr [.obj [("messaging", .arr [msg])]])]))
      = .ok (st', ⟨"OK", 200⟩) := by
  have he : extract_message_events (.obj [("entry", .arr [.obj [("messaging", .arr [msg])]])])
      = .ok [msg] := rfl
  simp only [webhook, he, Bind.bind, Except.bind, List.foldlM, h]
  rfl

theorem foldlM_ok_of_shape (env : Env) : ∀ (events : List Json),
    (∀ e ∈ events, event_shape_ok e = true) → ∀ st : WebhookState,
    ∃ st', events.foldlM (process_event env) st = .ok st' := by
  intro events
  induction events with
  | nil => intro _ st; exact ⟨st, rfl⟩
  | cons e es ih =>
    intro h st
    have he : event_shape_ok e = true := h e (by simp)
    have h1 : ∃ st1, process_event env st e = .ok st1 := by
      rw [← exceptOk_iff]
      rw [process_event_isOk_eq_shape]
      exact he
    obtain ⟨st1, h1⟩ := h1
    obtain ⟨st2, h2⟩ := ih (fun x hx => h x (by simp [hx])) st1
    refine ⟨st2, ?_⟩
    rw [List.foldlM_cons]
    simp only [h1, Bind.bind, Except.bind]
    exact h2

theorem entry_events_ok_of_shape (efields : List (String × Json)) (ms : List Json)
    (hm : (dictLookup efields "messaging").getD (.arr []) = .arr ms) :
    entry_events (.obj efields) = .ok ms := by
  simp only [entry_events, pyGetD, Bind.bind, Except.bind, hm, pyIter]

theorem mapM_entry_events_ok : ∀ (entries : List Json),
    (∀ e ∈ entries, ∃ l, entry_events e = .ok l) →
    ∃ ls, entries.mapM entry_events = .ok ls := by
  intro entries
  induction entries with
  | nil => intro _; exact ⟨[], rfl⟩
  | cons e es ih =>
    intro h
    obtain ⟨l, hl⟩ := h e (by simp)
    obtain ⟨ls, hls⟩ := ih (fun x hx => h x (by simp [hx]))
    refine ⟨l :: ls, ?_⟩
    rw [List.mapM_cons]
    simp only [hl, hls, Bind.bind, Except.bind, pure, Except.pure]

theorem keptCommandNames_spec : ∀ (cs : List Json),
    (∀ c ∈ cs, ∀ cfields, c = .obj cfields →
      dictLookup cfields "name" = none ∨ dictLookup cfields "name" = some .null ∨
      ∃ s, dictLookup cfields "name" = some (.str s)) →
    keptCommandNames cs = (specNames cs).map Json.str := by
  intro cs
  induction cs with
  | nil => intro _; rfl
  | cons c cs ih =>
    intro h
    have htail := ih (fun x hx => h x (by simp [hx]))
    cases c with
    | obj cfields =>
      rcases h (.obj cfields) (by simp) cfields rfl with hn | hn | ⟨s, hn⟩
      · simpa [keptCommandNames, specNames, hn, truthy] using htail
      · simpa [keptCommandNames, specNames, hn, truthy] using htail
      · by_cases hs : s = ""
        · simpa [keptCommandNames, specNames, hn, hs, truthy] using htail
        · simpa [keptCommandNames, specNames, hn, hs, truthy] using htail
    | null => simpa [keptCommandNames, specNames] using htail
    | bool b => simpa [keptCommandNames, specNames] using htail
    | num n => simpa [keptCommandNames, specNames] using htail
    | str s => simpa [keptCommandNames, specNames] using htail
    | arr xs => simpa [keptCommandNames, specNames] using htail

theorem asStrings_map_str : ∀ (l : List String), asStrings (l.map Json.str) = some l := by
  intro l
  induction l with
  | nil => rfl
  | cons s l ih => simp [asStrings, ih]

/-- C5: for every message object of the documented shape (`text` absent,
null or a string; `commands` absent, null or a list whose object elements
carry an absent, null or string `name`), normalization returns the trimmed
text and the names of the commands in encountered order — keeping only
commands that are objects bearing a (non-empty) name — combined exactly by
the spec's rule: both present → `"{text}\nCommands: {comma-joined names}"`;
only commands → `"Commands: {comma-joined names}"`; only text → the text
unchanged; neither → the empty string. -/
theorem get_user_text_normalization (mfields : List (String × Json))
    (htext : dictLookup mfields "text" = none ∨ dictLookup mfields "text" = some .null ∨
      ∃ s, dictLookup mfields "text" = some (.str s))
    (hcmds : dictLookup mfields "commands" = none ∨ dictLookup mfields "commands" = some .null ∨
      ∃ cs, dictLookup mfields "commands" = some (.arr cs))
    (hnames : ∀ c ∈ specCommands mfields, ∀ cfields, c = .obj cfields →
      dictLookup cfields "name" = none ∨ dictLookup cfields "name" = some .null ∨
      ∃ s, dictLookup cfields "name" = some (.str s)) :
    get_user_text (.obj mfields) = .ok
      (specCombine (specText mfields) (specNames (specCommands mfields)),
       (specNames (specCommands mfields)).map Json.str) := by
  have hT : pyStrip (pyOr ((dictLookup mfields "text").getD .null) (.str ""))
      = .ok (specText mfields) := by
    rcases htext with hn | hn | ⟨s, hn⟩
    · simp [hn, pyOr, truthy, pyStrip, specText]
      rfl
    · simp [hn, pyOr, truthy, pyStrip, specText]
      rfl
    · by_cases hs : s = "" <;> simp [hn, hs, pyOr, truthy, pyStrip, specText]
  have hC : pyIter (pyOr ((dictLookup mfields "commands").getD .null) (.arr []))
      = .ok (specCommands mfields) := by
    rcases hcmds with hn | hn | ⟨cs, hn⟩
    · simp [hn, pyOr, truthy, pyIter, specCommands]
    · simp [hn, pyOr, truthy, pyIter, specCommands]
    · by_cases hs : cs.isEmpty
      · rw [List.isEmpty_iff] at hs
        simp [hn, hs, pyOr, truthy, pyIter, specCommands]
      · simp [hn, hs, pyOr, truthy, pyIter, specCommands]
  have hK := keptCommandNames_spec (specCommands mfields) hnames
  simp only [get_user_text, pyGet, pyGetD, Bind.bind, Except.bind, hT, hC, hK]
  by_cases hns : specNames (specCommands mfields) = []
  · simp [hns, specCombine, pure, Except.pure]
  · have hne : ((specNames (specCommands mfields)).map Json.str).isEmpty = false := by
      simp [List.isEmpty_iff, hns]
    simp only [hne, Bool.false_eq_true, if_false, pyJoin,
      asStrings_map_str (specNames (specCommands mfields))]
    by_cases ht0 : specText mfields = ""
    · simp [ht0, hns, specCombine, pure, Except.pure]
    · simp [ht0, hns, specCombine, pure, Except.pure]

-- ===== Claims =====

/-- C3: event extraction returns a flat ordered sequence: any non-dict
input yields the empty sequence without error; otherwise events appear in
order — the single-event form first, then the nested sample form, then the
batch-derived events preserving entry order and, within each entry,
messaging order — so a batch payload with two entries each containing two
messaging events yields exactly four events in entry-then-inner order. -/
theorem extract_message_events_order :
    (∀ data : Json, data.isObj = false → extract_message_events data = .ok [])
    ∧ (∀ (fields : List (String × Json)) (batched : List Json),
        batch_events ((dictLookup fields "entry").getD (.arr [])) = .ok batched →
        extract_message_events (.obj fields)
          = .ok (single_event fields ++ sample_event fields ++ batched))
    ∧ (∀ e1 e2 e3 e4 : Json,
        extract_message_events (.obj [("entry", .arr [
          .obj [("messaging", .arr [e1, e2])], .obj [("messaging", .arr [e3, e4])]])])
          = .ok [e1, e2, e3, e4]) := by
  refine ⟨?_, ?_, ?_⟩
  · intro data h
    cases data <;> first | rfl | simp [Json.isObj] at h
  · intro fields batched h
    simp only [extract_message_events, h, Bind.bind, Except.bind]
    rfl
  · intro e1 e2 e3 e4
    rfl

/-- C3 witness: a one-entry batch, extracted through the batch branch. -/
theorem extract_message_events_order_witness :
    extract_message_events (.obj [("entry", .arr [.obj [("messaging", .arr [.null])]])])
      = .ok (single_event [("entry", .arr [.obj [("messaging", .arr [.null])]])]
          ++ sample_event [("entry", .arr [.obj [("messaging", .arr [.null])]])]
          ++ [.null]) :=
  extract_message_events_order.2.1 _ [.null] rfl

/-- C4 counterexample: extraction is not total — a payload whose `entry`
field is the number `1` makes `for entry in data.get("entry", [])` raise
`TypeError` instead of returning an event sequence. -/
theorem extract_message_events_raises_on_bad_entry :
    extract_message_events (.obj [("entry", .num 1)]) = .error .typeError := rfl

/-- C4 (amended): extraction returns a (possibly empty) event sequence
without raising for every non-dict input and for every dict whose `entry`
field, when present, is a list of dicts whose `messaging` field, when
present, is a list; an `entry` of any other shape raises. -/
theorem extract_message_events_total_amended (data : Json)
    (h : entry_shape_ok data = true) :
    ∃ events, extract_message_events data = .ok events := by
  cases data with
  | obj fields =>
    simp only [entry_shape_ok] at h
    cases hv : (dictLookup fields "entry").getD (.arr []) with
    | arr entries =>
      rw [hv] at h
      have hall : ∀ e ∈ entries, ∃ l, entry_events e = .ok l := by
        rw [List.all_eq_true] at h
        intro e he
        have he' := h e he
        cases e with
        | obj efields =>
          have he2 : (match (dictLookup efields "messaging").getD (Json.arr []) with
            | Json.arr _ => true
            | _ => false) = true := he'
          cases hm : (dictLookup efields "messaging").getD (.arr []) with
          | arr ms => exact ⟨ms, entry_events_ok_of_shape efields ms hm⟩
          | null => rw [hm] at he2; exact (Bool.false_ne_true he2).elim
          | bool b => rw [hm] at he2; exact (Bool.false_ne_true he2).elim
          | num n => rw [hm] at he2; exact (Bool.false_ne_true he2).elim
          | str s => rw [hm] at he2; exact (Bool.false_ne_true he2).elim
          | obj o => rw [hm] at he2; exact (Bool.false_ne_true he2).elim
        | null => exact (Bool.false_ne_true he').elim
        | bool b => exact (Bool.false_ne_true he').elim
        | num n => exact (Bool.false_ne_true he').elim
        | str s => exact (Bool.false_ne_true he').elim
        | arr xs => exact (Bool.false_ne_true he').elim
      obtain ⟨ls, hls⟩ := mapM_entry_events_ok entries hall
      refine ⟨single_event fields ++ sample_event fields ++ ls.flatten, ?_⟩
      simp only [extract_message_events, batch_events, hv, pyIter, Bind.bind, Except.bind, hls]
      rfl
    | null => rw [hv] at h; exact (Bool.false_ne_true h).elim
    | bool b => rw [hv] at h; exact (Bool.false_ne_true h).elim
    | num n => rw [hv] at h; exact (Bool.false_ne_true h).elim
    | str s => rw [hv] at h; exact (Bool.false_ne_true h).elim
    | obj o => rw [hv] at h; exact (Bool.false_ne_true h).elim
  | null => exact ⟨[], rfl⟩
  | bool b => exact ⟨[], rfl⟩
  | num n => exact ⟨[], rfl⟩
  | str s => exact ⟨[], rfl⟩
  | arr elems => exact ⟨[], rfl⟩

/-- C4 witness: a well-shaped batch containing one non-dict messaging
element still extracts without raising. -/
theorem extract_message_events_total_amended_witness :
    ∃ events, extract_message_events
      (.obj [("entry", .arr [.obj [("messaging", .arr [.num 1])]])]) = .ok events :=
  extract_message_events_total_amended _ rfl

/-- C6: history retrieval keeps exactly `min(N, 5)` turns — the most
recently created rows of the user, in chronological order — and formats
them one `role: content` line per turn, newline-terminated; an unknown
user yields the empty string. -/
theorem get_last_messages_window (store : List Turn) (uid : Json) :
    get_last_messages store uid =
      String.join ((((store.filter fun t => Json.beq t.user_id uid)).drop
        ((store.filter fun t => Json.beq t.user_id uid).length - 5)).map formatTurnLine)
    ∧ (((store.filter fun t => Json.beq t.user_id uid)).drop
        ((store.filter fun t => Json.beq t.user_id uid).length - 5)).length
      = min (store.filter fun t => Json.beq t.user_id uid).length 5
    ∧ ((store.filter fun t => Json.beq t.user_id uid) = [] →
        get_last_messages store uid = "") := by
  refine ⟨get_last_messages_eq store uid, ?_, ?_⟩
  · rw [List.length_drop]
    omega
  · intro h
    rw [get_last_messages_eq, h]
    rfl

/-- C6 witness: a user with no rows gets the empty history. -/
theorem get_last_messages_window_witness :
    get_last_messages [⟨.str "U1", "user", "a"⟩] (.str "U2") = "" :=
  (get_last_messages_window [⟨.str "U1", "user", "a"⟩] (.str "U2")).2.2 rfl

/-- C5 witness: text plus two named commands and one non-object command. -/
theorem get_user_text_normalization_witness :
    get_user_text (.obj [("text", .str " Hello "),
      ("commands", .arr [.obj [("name", .str "buy")], .num 7, .obj [("name", .str "help")]])])
      = .ok ("Hello\nCommands: buy, help", [.str "buy", .str "help"]) := by
  have h := get_user_text_normalization
    [("text", .str " Hello "),
     ("commands", .arr [.obj [("name", .str "buy")], .num 7, .obj [("name", .str "help")]])]
    (Or.inr (Or.inr ⟨" Hello ", rfl⟩))
    (Or.inr (Or.inr ⟨[.obj [("name", .str "buy")], .num 7, .obj [("name", .str "help")]], rfl⟩))
    (by
      intro c hc cfields hcf
      have hc' : c = Json.obj [("name", Json.str "buy")] ∨ c = Json.num 7 ∨
          c = Json.obj [("name", Json.str "help")] := by
        simpa [specCommands, dictLookup] using hc
      rcases hc' with h1 | h1 | h1 <;> subst h1
      · injection hcf with h2
        subst h2
        exact Or.inr (Or.inr ⟨"buy", rfl⟩)
      · exact absurd hcf (by simp)
      · injection hcf with h2
        subst h2
        exact Or.inr (Or.inr ⟨"help", rfl⟩))
  exact h.trans (by rfl)

/-- C7: reply generation returns the fixed fallback string whenever no
Gemini credential is configured (for every prompt and oracle, without
depending on the call's outcome), whenever the call raises, and whenever
the stripped response text is empty (response text `None`, empty, or
whitespace-only); on a successful call with non-whitespace text it returns
exactly the stripped response text. -/
theorem generate_bot_reply_contract (env : Env) (prompt : String) :
    (env.gemini_api_key = "" → generate_bot_reply env prompt = fallbackReply)
    ∧ (env.api prompt = .raises → generate_bot_reply env prompt = fallbackReply)
    ∧ (∀ t, env.api prompt = .returns t → pyTrim (pyOrStr t "") = "" →
        generate_bot_reply env prompt = fallbackReply)
    ∧ (∀ t, env.api prompt = .returns t → pyTrim (pyOrStr t "") ≠ "" →
        env.gemini_api_key ≠ "" →
        generate_bot_reply env prompt = pyTrim (pyOrStr t "")) := by
  refine ⟨?_, ?_, ?_, ?_⟩
  · intro h
    simp [generate_bot_reply, modelConfigured, h]
  · intro h
    by_cases hk : env.gemini_api_key = ""
    · simp [generate_bot_reply, modelConfigured, hk]
    · simp [generate_bot_reply, modelConfigured, hk, h]
  · intro t h h0
    by_cases hk : env.gemini_api_key = ""
    · simp [generate_bot_reply, modelConfigured, hk]
    · simp [generate_bot_reply, modelConfigured, hk, h, h0]
  · intro t h h0 hk
    simp [generate_bot_reply, modelConfigured, hk, h, h0]

/-- C7 witness: a configured key and a padded response yield the stripped
response text. -/
theorem generate_bot_reply_contract_witness :
    generate_bot_reply envChat "p" = "Chào bạn" := by
  have h := (generate_bot_reply_contract envChat "p").2.2.2
    (some " Chào bạn ") rfl (by decide) (by decide)
  exact h.trans (by rfl)

/-- C8: the GET /webhook verification accepts exactly when the presented
`hub.verify_token` equals the configured secret and the secret is
non-empty, in which case it echoes `hub.challenge`; in every other case —
in particular whenever the configured secret is empty, for every presented
token including the empty one — it returns the fixed failure string. -/
theorem verify_characterization (verifyToken : String) (args : String → Option String) :
    (verifyToken ≠ "" ∧ args "hub.verify_token" = some verifyToken →
      verify verifyToken args = (match args "hub.challenge" with
        | some c => .body c
        | none => .pyNone))
    ∧ (verifyToken = "" ∨ args "hub.verify_token" ≠ some verifyToken →
      verify verifyToken args = .body "Verification failed") := by
  constructor
  · rintro ⟨h1, h2⟩
    simp [verify, h1, h2]
  · intro h
    rcases h with h | h
    · simp [verify, h]
    · simp [verify, h]

/-- C8 witness: matching non-empty token echoes the challenge. -/
theorem verify_characterization_witness :
    verify "shhh" argsFull = .body "12345" := by
  have h := (verify_characterization "shhh" argsFull).1 ⟨by decide, rfl⟩
  exact h.trans (by rfl)

/-- C10: when the presented token matches a non-empty secret but the
request carries no `hub.challenge` parameter, the handler returns the
absent value (Python `None`), not any challenge text. -/
theorem verify_missing_challenge (verifyToken : String) (args : String → Option String)
    (h1 : verifyToken ≠ "") (h2 : args "hub.verify_token" = some verifyToken)
    (h3 : args "hub.challenge" = none) :
    verify verifyToken args = .pyNone := by
  simp [verify, h1, h2, h3]

/-- C10 witness: a concrete matching request with no challenge parameter. -/
theorem verify_missing_challenge_witness :
    verify "shhh" argsNoChallenge = .pyNone :=
  verify_missing_challenge "shhh" argsNoChallenge (by decide) rfl rfl

/-- C1: for every event with a (truthy) sender id whose normalized text is
non-empty, the handler appends exactly two turns to the store in order —
first role `user` with the normalized text, then role `bot` with the
generated reply — and invokes the outbound send exactly once with that
sender id and the reply text; for every event with a sender id but empty
normalized text (no text, no commands), no turn is appended, no send is
invoked, and the request is still answered 200 `"OK"`. -/
theorem webhook_event_turns_and_send (env : Env) (st : WebhookState)
    (msg senderObj sender_id message : Json) (text : String) (names : List Json)
    (hs : pyGetD msg "sender" (.obj []) = .ok senderObj)
    (hid : pyGet senderObj "id" = .ok sender_id)
    (ht : truthy sender_id = true)
    (hm : pyGetD msg "message" (.obj []) = .ok message)
    (hu : get_user_text message = .ok (text, names)) :
    (text ≠ "" → process_event env st msg = .ok
      { store := st.store ++ [⟨sender_id, "user", text⟩,
          ⟨sender_id, "bot", generate_bot_reply env (build_prompt
            (get_last_messages (st.store ++ [⟨sender_id, "user", text⟩]) sender_id) text)⟩],
        sent := st.sent ++ [(sender_id, generate_bot_reply env (build_prompt
          (get_last_messages (st.store ++ [⟨sender_id, "user", text⟩]) sender_id) text))] })
    ∧ (text = "" →
        process_event env st msg = .ok st ∧
        webhook env st (some (.obj [("entry", .arr [.obj [("messaging", .arr [msg])]])]))
          = .ok (st, ⟨"OK", 200⟩)) := by
  constructor
  · intro htext
    exact process_event_run env st msg senderObj sender_id message text names hs hid ht hm hu htext
  · intro htext
    subst htext
    have hskip := process_event_skip env st msg senderObj sender_id message names hs hid ht hm hu
    exact ⟨hskip, webhook_single_event env st st msg hskip⟩

/-- C1 witness: the processed event writes the user turn, the bot turn, and
one send invocation. -/
theorem webhook_event_turns_and_send_witness :
    process_event envNoApi ⟨[], []⟩ eventHi
      = .ok ⟨[⟨.str "U1", "user", "hi"⟩, ⟨.str "U1", "bot", fallbackReply⟩],
             [(.str "U1", fallbackReply)]⟩ :=
  (webhook_event_turns_and_send envNoApi ⟨[], []⟩ eventHi _ _ _ "hi" [] rfl rfl rfl rfl rfl).1
    (by decide)

/-- C2 counterexample: processing is not exception-isolated per event — a
batch whose first messaging element is the number `1` raises
`AttributeError` at `msg.get("sender", {})`, so the well-formed second
event is never processed and the response is an unhandled error, not
200 `"OK"`. -/
theorem webhook_batch_abort_counterexample :
    webhook envNoApi ⟨[], []⟩
      (some (.obj [("entry", .arr [.obj [("messaging", .arr [.num 1, eventHi])]])]))
      = .error .attrError := rfl

/-- C2 (amended): malformed or empty JSON is always answered 200 `"OK"`
with the state untouched; the recoverable per-event failures (generation
raising or returning empty text, outbound-send failure, missing sender id,
empty normalized text) neither abort the batch nor change the response —
for every payload whose events have recognized shapes the response is 200
`"OK"` for every configuration and generation oracle; but an event of
unrecognized shape raises an unhandled error that aborts the remaining
events and prevents the 200 response. -/
theorem webhook_response_amended :
    (∀ (env : Env) (st : WebhookState), webhook env st none = .ok (st, ⟨"OK", 200⟩))
    ∧ (∀ (env : Env) (st : WebhookState) (data : Json), payload_shape_ok data = true →
        ∃ st', webhook env st (some data) = .ok (st', ⟨"OK", 200⟩)) := by
  constructor
  · intro env st
    rfl
  · intro env st data h
    cases he : extract_message_events data with
    | error e =>
      exfalso
      unfold payload_shape_ok at h
      rw [he] at h
      exact Bool.false_ne_true h
    | ok events =>
      have h' : events.all event_shape_ok = true := by
        unfold payload_shape_ok at h
        rw [he] at h
        exact h
      have hall : ∀ e ∈ events, event_shape_ok e = true := by
        rw [List.all_eq_true] at h'
        exact fun e he' => h' e he'
      obtain ⟨st', hf⟩ := foldlM_ok_of_shape env events hall st
      refine ⟨st', ?_⟩
      simp only [webhook, he, Bind.bind, Except.bind, hf]
      rfl

/-- C2 witness: a batch with one processable event and one skippable event
is answered 200 `"OK"` under a configuration whose generation succeeds. -/
theorem webhook_response_amended_witness :
    ∃ st', webhook envChat ⟨[], []⟩
      (some (.obj [("entry", .arr [.obj [("messaging", .arr [eventHi, eventEmpty])]])]))
      = .ok (st', ⟨"OK", 200⟩) :=
  webhook_response_amended.2 envChat ⟨[], []⟩ _ rfl

/-- C9: the user turn is persisted before history is fetched and the 5-turn
window is taken from the post-insert store, so the formatted history always
ends with the just-saved `user: <text>` line and the prompt therefore
contains the newest user message twice — once inside the history block and
once in the new-message slot. -/
theorem prompt_repeats_latest_user_text (env : Env) (st : WebhookState)
    (msg senderObj sender_id message : Json) (text : String) (names : List Json)
    (hs : pyGetD msg "sender" (.obj []) = .ok senderObj)
    (hid : pyGet senderObj "id" = .ok sender_id)
    (ht : truthy sender_id = true)
    (hm : pyGetD msg "message" (.obj []) = .ok message)
    (hu : get_user_text message = .ok (text, names))
    (htext : text ≠ "") :
    ∃ h0 : String,
      get_last_messages (st.store ++ [⟨sender_id, "user", text⟩]) sender_id
        = h0 ++ "user: " ++ text ++ "\n"
      ∧ build_prompt (get_last_messages (st.store ++ [⟨sender_id, "user", text⟩]) sender_id) text
        = promptHeader ++ (h0 ++ "user: " ++ text ++ "\n") ++ promptMiddle ++ text ++ promptFooter
      ∧ process_event env st msg = .ok
        { store := st.store ++ [⟨sender_id, "user", text⟩,
            ⟨sender_id, "bot", generate_bot_reply env (build_prompt
              (get_last_messages (st.store ++ [⟨sender_id, "user", text⟩]) sender_id) text)⟩],
          sent := st.sent ++ [(sender_id, generate_bot_reply env (build_prompt
            (get_last_messages (st.store ++ [⟨sender_id, "user", text⟩]) sender_id) text))] } := by
  obtain ⟨h0, hh⟩ := history_ends_with_line st.store sender_id ⟨sender_id, "user", text⟩
    (Json.beq_refl sender_id)
  have hh' : get_last_messages (st.store ++ [⟨sender_id, "user", text⟩]) sender_id
      = h0 ++ "user: " ++ text ++ "\n" := by
    rw [hh]
    show h0 ++ (("user: " ++ text) ++ "\n") = ((h0 ++ "user: ") ++ text) ++ "\n"
    simp [String.append_assoc]
  refine ⟨h0, hh', ?_, ?_⟩
  · rw [hh']
    rfl
  · exact process_event_run env st msg senderObj sender_id message text names hs hid ht hm hu htext

/-- C9 witness: with an empty prior store the history is exactly the
just-saved line and the prompt embeds `"hi"` twice. -/
theorem prompt_repeats_latest_user_text_witness :
    ∃ h0 : String,
      get_last_messages (([] : List Turn) ++ [⟨.str "U1", "user", "hi"⟩]) (.str "U1")
        = h0 ++ "user: " ++ "hi" ++ "\n"
      ∧ build_prompt (get_last_messages (([] : List Turn) ++ [⟨.str "U1", "user", "hi"⟩])
            (.str "U1")) "hi"
        = promptHeader ++ (h0 ++ "user: " ++ "hi" ++ "\n") ++ promptMiddle ++ "hi" ++ promptFooter
      ∧ process_event envNoApi ⟨[], []⟩ eventHi
        = .ok
          { store := [] ++ [⟨.str "U1", "user", "hi"⟩,
              ⟨.str "U1", "bot", generate_bot_reply envNoApi (build_prompt
                (get_last_messages (([] : List Turn) ++ [⟨.str "U1", "user", "hi"⟩])
                  (.str "U1")) "hi")⟩],
            sent := [] ++ [(.str "U1", generate_bot_reply envNoApi (build_prompt
              (get_last_messages (([] : List Turn) ++ [⟨.str "U1", "user", "hi"⟩])
                (.str "U1")) "hi"))] } :=
  prompt_repeats_latest_user_text envNoApi ⟨[], []⟩ eventHi _ _ _ "hi" []
    rfl rfl rfl rfl rfl (by decide)
